import Mathlib

/-!
Verification development for the eye-tracking utility layer of the
causal-language eye-tracking study (`js/eye-tracking-utils.js`).

The JavaScript class `EyeTrackingUtils` is embedded shallowly:
its mutable instance fields become the `TrackerState` structure, each
method becomes a pure function from the old state (plus the ambient
inputs the browser supplies: the clock, the viewport size, the page
path, the DOM regions) to the new state, and every call the class makes
into the external WebGazer engine is recorded in an explicit
`EngineCall` trace.  JavaScript exceptions appear as `Except` values;
`sessionStorage` is the three-field `Store` record (the class only ever
touches those three keys); `JSON.stringify`/`JSON.parse` operate on an
explicit `Json` value tree.
-/

namespace EyeTracking

/-- A gaze prediction delivered by the external engine's listener
callback (`data.x`, `data.y`). -/
structure GazeInput where
  x : Int
  y : Int
deriving DecidableEq, Repr

/-- The object the gaze listener appends to `this.gazeData`
(source lines 35-41): screen coordinates, `Date.now()` timestamp,
the engine's elapsed time, and `window.location.pathname`. -/
structure GazePoint where
  x : Int
  y : Int
  timestamp : Int
  elapsedTime : Int
  page : String
deriving DecidableEq, Repr

/-- A percentage-of-viewport calibration target coordinate. -/
structure Pos where
  x : Int
  y : Int
deriving DecidableEq, Repr

/-- `this.calibrationData` (source lines 99-103). -/
structure CalibrationRecord where
  positions : List Pos
  timestamp : Int
  completed : Bool
deriving DecidableEq, Repr

/-- The mutable instance fields of `EyeTrackingUtils` (constructor,
source lines 7-12; the string-keyed listener registry is pure UI fanout
and carries no tracker state). -/
structure TrackerState where
  isInitialized : Bool
  gazeData : List GazePoint
  calibrationData : Option CalibrationRecord
deriving DecidableEq, Repr

/-- A call made into the external WebGazer engine. -/
inductive EngineCall where
  | clearData
  | recordScreenPosition (x y : Rat)
  | engineEnd
  | enginePause
  | engineResume
deriving DecidableEq, Repr

/-- The default 9-point percentage grid (source lines 88-92). -/
def defaultPositions : List Pos :=
  [⟨10, 10⟩, ⟨50, 10⟩, ⟨90, 10⟩,
   ⟨10, 50⟩, ⟨50, 50⟩, ⟨90, 50⟩,
   ⟨10, 90⟩, ⟨50, 90⟩, ⟨90, 90⟩]

/-- The gaze listener registered by `init` (source lines 32-47): a null
prediction is dropped, otherwise one `GazePoint` is appended, stamped
with `Date.now()` and the current page path. -/
def handleGaze (s : TrackerState) (data : Option GazeInput)
    (elapsedTime : Int) (now : Int) (page : String) : TrackerState :=
  match data with
  | none => s
  | some d =>
      { s with gazeData := s.gazeData ++ [⟨d.x, d.y, now, elapsedTime, page⟩] }

/-- `calibrate(positions)` (source lines 83-155), run to completion with
the engine raising no errors.  Returns the new state, the trace of
engine calls made, and either the resolved record or the thrown error.
The source first throws if not initialized; otherwise it calls
`webgazer.clearData()`, then for each target (percentage coordinates
converted against the viewport `w × h`) records 5 screen-position
samples, and finally flips `completed` to `true` on the stored record
and resolves with it.  The per-target `Math.random`-free choreography
(timers, events) does not affect the final state and is not modelled. -/
def calibrate (s : TrackerState) (positions : Option (List Pos))
    (now : Int) (w h : Rat) :
    TrackerState × List EngineCall × Except String CalibrationRecord :=
  if s.isInitialized = false then
    (s, [], Except.error "Eye tracking not initialized")
  else
    let calibrationPositions := positions.getD defaultPositions
    let record : CalibrationRecord :=
      ⟨calibrationPositions, now, true⟩
    let calls :=
      EngineCall.clearData ::
        (calibrationPositions.map (fun p =>
          List.replicate 5
            (EngineCall.recordScreenPosition ((p.x : Rat) / 100 * w)
              ((p.y : Rat) / 100 * h)))).flatten
    ({ s with calibrationData := some record }, calls, Except.ok record)

/-- `stop()` (source lines 278-284): only acts when the adapter is
initialized and the engine reports ready. -/
def stop (engineReady : Bool) (s : TrackerState) :
    TrackerState × List EngineCall :=
  if s.isInitialized && engineReady then
    ({ s with isInitialized := false }, [EngineCall.engineEnd])
  else
    (s, [])

/-- `pause()` (source lines 289-294). -/
def pause (s : TrackerState) : TrackerState × List EngineCall :=
  if s.isInitialized then (s, [EngineCall.enginePause]) else (s, [])

/-- `resume()` (source lines 299-304). -/
def resume (s : TrackerState) : TrackerState × List EngineCall :=
  if s.isInitialized then (s, [EngineCall.engineResume]) else (s, [])

/-- `clearData()` (source lines 268-273). -/
def clearData (s : TrackerState) : TrackerState × List EngineCall :=
  ({ s with gazeData := [] },
   if s.isInitialized then [EngineCall.clearData] else [])

/-- A marked `.aoi` region: its `innerText` label and the live bounding
rectangle `getBoundingClientRect()` returns at analysis time. -/
structure AOI where
  innerText : String
  left : Int
  right : Int
  top : Int
  bottom : Int
deriving DecidableEq, Repr

/-- A value handed to `calculateDwellTimeOnAOIs`.  JavaScript is
duck-typed, so the function's input may or may not carry the `time`
field it reads (`time = none` models an absent or non-number field);
`timestamp` is the field the gaze listener actually records. -/
structure DwellPoint where
  x : Int
  y : Int
  time : Option Int
  timestamp : Int
deriving DecidableEq, Repr

/-- A listener-recorded `GazePoint` as `calculateDwellTimeOnAOIs` sees
it: it has `x`, `y`, `timestamp` and `elapsedTime` fields but no `time`
field. -/
def toDwellPoint (g : GazePoint) : DwellPoint :=
  ⟨g.x, g.y, none, g.timestamp⟩

/-- Drop the leading whitespace characters of a character list. -/
def dropLeadingWs : List Char → List Char
  | [] => []
  | c :: rest => if c.isWhitespace then dropLeadingWs rest else c :: rest

/-- JavaScript `String.prototype.trim()`: remove whitespace from both
ends (embedded directly over the character list so that it evaluates
inside the kernel). -/
def jsTrim (s : String) : String :=
  ⟨(dropLeadingWs (dropLeadingWs s.data).reverse).reverse⟩

/-- Character-list prefix test. -/
def startsAux : List Char → List Char → Bool
  | [], _ => true
  | _ :: _, [] => false
  | a :: as, b :: bs => a = b && startsAux as bs

/-- JavaScript `String.prototype.startsWith(p)`. -/
def jsStartsWith (s p : String) : Bool :=
  startsAux p.data s.data

/-- `isGazeOnElement(gazeX, gazeY, element)` (source lines 160-166). -/
def isGazeOnElement (gazeX gazeY : Int) (element : AOI) : Bool :=
  decide (element.left ≤ gazeX) && decide (gazeX ≤ element.right) &&
    decide (element.top ≤ gazeY) && decide (gazeY ≤ element.bottom)

/-- JavaScript object assignment `m[k] = v`: overwrite in place if the
key exists (keys keep insertion order), otherwise append. -/
def objSet (m : List (String × Int)) (k : String) (v : Int) :
    List (String × Int) :=
  match m with
  | [] => [(k, v)]
  | (k', v') :: rest =>
      if k' = k then (k, v) :: rest else (k', v') :: objSet rest k v

/-- JavaScript `m[k] += d` for a key known to be present. -/
def objAdd (m : List (String × Int)) (k : String) (d : Int) :
    List (String × Int) :=
  match m with
  | [] => []
  | (k', v') :: rest =>
      if k' = k then (k', v' + d) :: rest else (k', v') :: objAdd rest k d

/-- The zero-initialization loop of `calculateDwellTimeOnAOIs`
(source lines 175-179): one key per region, built from the trimmed
`innerText` plus a generated suffix.  `sfx i` stands for the
`Math.random().toString(36).substr(2, 5)` suffix drawn for the `i`-th
region; it is passed in as an oracle since the random draw is external. -/
def buildKeys (aois : List AOI) (sfx : Nat → String) :
    List (String × Int) :=
  aois.enum.foldl
    (fun m p => objSet m (jsTrim p.2.innerText ++ "_" ++ sfx p.1) 0) []

/-- The inner `aoiElements.forEach` body of `calculateDwellTimeOnAOIs`
for one consecutive pair of gaze points (source lines 189-202): if the
earlier point lies in the region, look up the first existing key whose
name starts with the region's trimmed label, take the difference of the
`time` fields when both are numbers (`0` otherwise), and add it when it
is strictly between `0` and `500`. -/
def dwellPair (aois : List AOI) (cur next : DwellPoint)
    (m0 : List (String × Int)) : List (String × Int) :=
  aois.foldl
    (fun m el =>
      if isGazeOnElement cur.x cur.y el then
        match (m.map Prod.fst).find? (fun k => jsStartsWith k (jsTrim el.innerText)) with
        | some key =>
            let duration : Int :=
              match next.time, cur.time with
              | some nt, some ct => nt - ct
              | _, _ => 0
            if 0 < duration ∧ duration < 500 then objAdd m key duration else m
        | none => m
      else m)
    m0

/-- The `for (let i = 0; i < gazeData.length - 1; i++)` loop of
`calculateDwellTimeOnAOIs` (source lines 185-203). -/
def dwellLoop (aois : List AOI) :
    List DwellPoint → List (String × Int) → List (String × Int)
  | p1 :: p2 :: rest, m => dwellLoop aois (p2 :: rest) (dwellPair aois p1 p2 m)
  | _, m => m

/-- `calculateDwellTimeOnAOIs(gazeData)` (source lines 171-206). -/
def calculateDwellTimeOnAOIs (aois : List AOI) (sfx : Nat → String)
    (gazeData : List DwellPoint) : List (String × Int) :=
  let dwellTimes := buildKeys aois sfx
  if gazeData.length < 2 then dwellTimes
  else dwellLoop aois gazeData dwellTimes

/-- The dwell-time accumulation for one region as the specification
words it (spec section 8, scenario with timestamps 0, 100, 2000): over
every consecutive pair whose earlier point lies inside the region, sum
the inter-sample delta of the recorded timestamps when it is a positive
number strictly below 500. -/
def specDwellTimeInRegion (el : AOI) : List DwellPoint → Int
  | p1 :: p2 :: rest =>
      (if isGazeOnElement p1.x p1.y el = true ∧
          0 < p2.timestamp - p1.timestamp ∧ p2.timestamp - p1.timestamp < 500
       then p2.timestamp - p1.timestamp else 0) +
        specDwellTimeInRegion el (p2 :: rest)
  | _ => 0

/-- A JSON value, the target of `JSON.stringify` and the result of a
successful `JSON.parse`. -/
inductive Json where
  | null
  | bool (b : Bool)
  | num (n : Int)
  | str (s : String)
  | arr (items : List Json)
  | obj (fields : List (String × Json))

/-- A serialized value sitting in the session store: either the
rendering of a JSON value (what `JSON.stringify` produces) or a string
that is not valid JSON at all, on which `JSON.parse` throws. -/
inductive StoredVal where
  | json (j : Json)
  | malformed (s : String)

/-- The three `sessionStorage` keys the class touches
(`eyeTrackingCalibrated`, `calibrationTimestamp`, `calibrationData`);
`none` is `getItem` returning `null`. -/
structure Store where
  eyeTrackingCalibrated : Option String
  calibrationTimestamp : Option String
  calibrationData : Option StoredVal

/-- JavaScript truthiness of a `getItem` result: `null` and the empty
string are falsy. -/
def jsTruthyStr : Option String → Bool
  | none => false
  | some s => !s.isEmpty

/-- Truthiness of a stored serialized value: `JSON.stringify` output is
a non-empty string, a malformed entry is falsy exactly when empty. -/
def StoredVal.truthy : StoredVal → Bool
  | StoredVal.json _ => true
  | StoredVal.malformed s => !s.isEmpty

/-- Truthiness of `getItem('calibrationData')`. -/
def truthyOptStored : Option StoredVal → Bool
  | none => false
  | some v => v.truthy

/-- `JSON.parse` on a stored string: yields the JSON value, or throws a
syntax error on a malformed string. -/
def jsonParse : StoredVal → Except String Json
  | StoredVal.json j => Except.ok j
  | StoredVal.malformed _ =>
      Except.error "SyntaxError: Unexpected token in JSON"

def encodePos (p : Pos) : Json :=
  Json.obj [("x", Json.num p.x), ("y", Json.num p.y)]

def decodePos : Json → Option Pos
  | Json.obj [("x", Json.num x), ("y", Json.num y)] => some ⟨x, y⟩
  | _ => none

def encodeGazePoint (g : GazePoint) : Json :=
  Json.obj [("x", Json.num g.x), ("y", Json.num g.y),
    ("timestamp", Json.num g.timestamp),
    ("elapsedTime", Json.num g.elapsedTime), ("page", Json.str g.page)]

def decodeGazePoint : Json → Option GazePoint
  | Json.obj [("x", Json.num x), ("y", Json.num y),
      ("timestamp", Json.num ts), ("elapsedTime", Json.num et),
      ("page", Json.str pg)] => some ⟨x, y, ts, et, pg⟩
  | _ => none

/-- Decode each element of a JSON array. -/
def decodeListAux {α : Type} (f : Json → Option α) :
    List Json → Option (List α)
  | [] => some []
  | j :: rest =>
      match f j, decodeListAux f rest with
      | some a, some l => some (a :: l)
      | _, _ => none

/-- `JSON.stringify(this.calibrationData)` as a JSON value. -/
def encodeCalib (c : CalibrationRecord) : Json :=
  Json.obj [("positions", Json.arr (c.positions.map encodePos)),
    ("timestamp", Json.num c.timestamp),
    ("completed", Json.bool c.completed)]

def decodeCalib : Json → Option CalibrationRecord
  | Json.obj [("positions", Json.arr ps), ("timestamp", Json.num t),
      ("completed", Json.bool b)] =>
      (decodeListAux decodePos ps).map (fun l => ⟨l, t, b⟩)
  | _ => none

def encodeCalibOpt : Option CalibrationRecord → Json
  | none => Json.null
  | some c => encodeCalib c

def decodeCalibOpt (j : Json) : Option (Option CalibrationRecord) :=
  match j with
  | Json.null => some none
  | _ => (decodeCalib j).map some

/-- The metadata block of `exportGazeData` (source lines 255-261). -/
structure Metadata where
  userAgent : String
  screenResolution : String
  viewportSize : String
  exportTime : Int
deriving DecidableEq, Repr

/-- The record `exportGazeData` returns (source lines 251-263). -/
structure ExportRecord where
  gazeData : List GazePoint
  calibrationData : Option CalibrationRecord
  metadata : Metadata
deriving DecidableEq, Repr

/-- `exportGazeData()` (source lines 251-263): a pure snapshot of the
current sequence and record plus device metadata. -/
def exportGazeData (s : TrackerState) (userAgent : String)
    (screenW screenH vpW vpH now : Int) : ExportRecord :=
  { gazeData := s.gazeData
    calibrationData := s.calibrationData
    metadata :=
      { userAgent := userAgent
        screenResolution := toString screenW ++ "x" ++ toString screenH
        viewportSize := toString vpW ++ "x" ++ toString vpH
        exportTime := now } }

def encodeMetadata (m : Metadata) : Json :=
  Json.obj [("userAgent", Json.str m.userAgent),
    ("screenResolution", Json.str m.screenResolution),
    ("viewportSize", Json.str m.viewportSize),
    ("exportTime", Json.num m.exportTime)]

def decodeMetadata : Json → Option Metadata
  | Json.obj [("userAgent", Json.str ua),
      ("screenResolution", Json.str sr), ("viewportSize", Json.str vp),
      ("exportTime", Json.num t)] => some ⟨ua, sr, vp, t⟩
  | _ => none

/-- `JSON.stringify` of the full export record, as a JSON value. -/
def encodeExport (r : ExportRecord) : Json :=
  Json.obj [("gazeData", Json.arr (r.gazeData.map encodeGazePoint)),
    ("calibrationData", encodeCalibOpt r.calibrationData),
    ("metadata", encodeMetadata r.metadata)]

/-- `JSON.parse` of a serialized export record back into the record
shape. -/
def decodeExport : Json → Option ExportRecord
  | Json.obj [("gazeData", Json.arr gs), ("calibrationData", cj),
      ("metadata", mj)] =>
      match decodeListAux decodeGazePoint gs, decodeCalibOpt cj,
          decodeMetadata mj with
      | some g, some c, some m => some ⟨g, c, m⟩
      | _, _, _ => none
  | _ => none

/-- `isCalibrated()` (source lines 309-314): the in-memory record must
exist with `completed` truthy and the persisted flag must equal the
literal string `'true'`. -/
def isCalibrated (s : TrackerState) (st : Store) : Bool :=
  (match s.calibrationData with
   | some c => c.completed
   | none => false) &&
    decide (st.eyeTrackingCalibrated = some "true")

/-- `saveCalibrationState()` (source lines 319-327): persists the flag,
the stringified timestamp and the serialized record only when an
in-memory record exists with `completed` true; otherwise nothing is
written. -/
def saveCalibrationState (s : TrackerState) (st : Store) : Store :=
  match s.calibrationData with
  | some c =>
      if c.completed then
        ⟨some "true", some (toString c.timestamp),
          some (StoredVal.json (encodeCalib c))⟩
      else st
  | none => st

/-- `loadCalibrationState()` (source lines 332-344): reads the three
keys, and when the flag equals `'true'` and the other two values are
truthy, assigns `JSON.parse(data)` to the in-memory record and returns
`true`; otherwise returns `false`.  `JSON.parse` has no surrounding
`try`, so a malformed stored record propagates the thrown syntax error
(`Except.error`).  When the parsed JSON is not a calibration-record
shape, `decodeCalib` yields `none`; every later read of the record in
this file observes the same results as JavaScript holding the raw
non-record value, whose `completed` access is falsy. -/
def loadCalibrationState (s : TrackerState) (st : Store) :
    Except String (TrackerState × Bool) :=
  match st.calibrationData with
  | none => Except.ok (s, false)
  | some v =>
      if decide (st.eyeTrackingCalibrated = some "true") &&
          jsTruthyStr st.calibrationTimestamp && v.truthy then
        match v with
        | StoredVal.json j =>
            Except.ok ({ s with calibrationData := decodeCalib j }, true)
        | StoredVal.malformed _ =>
            Except.error "SyntaxError: Unexpected token in JSON"
      else Except.ok (s, false)

theorem decodePos_encode (p : Pos) : decodePos (encodePos p) = some p := by
  cases p
  rfl

theorem decodeGazePoint_encode (g : GazePoint) :
    decodeGazePoint (encodeGazePoint g) = some g := by
  cases g
  rfl

theorem decodeListAux_encode {α : Type} (f : α → Json) (g : Json → Option α)
    (h : ∀ a, g (f a) = some a) :
    ∀ l : List α, decodeListAux g (l.map f) = some l
  | [] => rfl
  | a :: rest => by
      simp [decodeListAux, h a, decodeListAux_encode f g h rest]

theorem decodeCalib_encode (c : CalibrationRecord) :
    decodeCalib (encodeCalib c) = some c := by
  cases c with
  | mk ps t cm =>
      simp [encodeCalib, decodeCalib,
        decodeListAux_encode encodePos decodePos decodePos_encode ps]

theorem decodeCalibOpt_encode (o : Option CalibrationRecord) :
    decodeCalibOpt (encodeCalibOpt o) = some o := by
  cases o with
  | none => rfl
  | some c =>
      cases c with
      | mk ps t cm =>
          simp [encodeCalibOpt, encodeCalib, decodeCalibOpt, decodeCalib,
            decodeListAux_encode encodePos decodePos decodePos_encode ps]

theorem decodeMetadata_encode (m : Metadata) :
    decodeMetadata (encodeMetadata m) = some m := by
  cases m
  rfl

theorem decodeExport_encode (r : ExportRecord) :
    decodeExport (encodeExport r) = some r := by
  cases r with
  | mk g c m =>
      simp [encodeExport, decodeExport,
        decodeListAux_encode encodeGazePoint decodeGazePoint decodeGazePoint_encode g,
        decodeCalibOpt_encode c, decodeMetadata_encode m]

/-- C9: for every tracker state, serializing the record returned by
`exportGazeData()` to JSON and deserializing it again yields a gaze
sequence equal to the current gaze sequence and a calibration record
equal to the current calibration record. -/
theorem exportGazeData_roundtrip (s : TrackerState) (ua : String)
    (sw sh vw vh now : Int) :
    ∃ r : ExportRecord,
      decodeExport (encodeExport (exportGazeData s ua sw sh vw vh now)) = some r ∧
        r.gazeData = s.gazeData ∧ r.calibrationData = s.calibrationData :=
  ⟨exportGazeData s ua sw sh vw vh now, decodeExport_encode _, rfl, rfl⟩

/-- C4: `isCalibrated()` returns true if and only if the in-memory
calibration record exists with its `completed` flag true and the
persisted flag equals the literal string `'true'`; every other
combination yields false. -/
theorem isCalibrated_true_iff (s : TrackerState) (st : Store) :
    isCalibrated s st = true ↔
      (∃ c, s.calibrationData = some c ∧ c.completed = true) ∧
        st.eyeTrackingCalibrated = some "true" := by
  cases h : s.calibrationData with
  | none => simp [isCalibrated, h]
  | some c => simp [isCalibrated, h]

/-- C7: the gaze sequence is append-only: `stop()`, `pause()`,
`resume()` and `calibrate()` leave every previously recorded gaze
point unchanged and never remove points; `clearData()` empties the
whole sequence; a second `stop()` after a `stop()` changes nothing
(and makes no engine call); the gaze listener only appends. -/
theorem gaze_sequence_append_only (s : TrackerState) (engineReady : Bool)
    (d : GazeInput) (et now t : Int) (pg : String)
    (pos : Option (List Pos)) (w h : Rat) :
    (stop engineReady s).1.gazeData = s.gazeData ∧
      (pause s).1 = s ∧
      (resume s).1 = s ∧
      stop engineReady (stop engineReady s).1 = ((stop engineReady s).1, []) ∧
      (clearData s).1.gazeData = [] ∧
      (handleGaze s (some d) et now pg).gazeData =
        s.gazeData ++ [⟨d.x, d.y, now, et, pg⟩] ∧
      (calibrate s pos t w h).1.gazeData = s.gazeData := by
  cases s with
  | mk init gd cd =>
      cases init <;> cases engineReady <;>
        simp [stop, pause, resume, clearData, handleGaze, calibrate]

/-- C1 (failing input): two gaze points recorded by the gaze listener
(so carrying `timestamp` but no `time` field) 100 ms apart, the earlier
one inside the region covering x, y ∈ [0, 20].  The claim (and the
spec's scenario in section 8) demands a dwell time of 100 ms, but the
code reads the nonexistent `time` field, treats every delta as
malformed, and accumulates 0. -/
theorem dwell_time_listener_field_mismatch :
    calculateDwellTimeOnAOIs [⟨"R", 0, 20, 0, 20⟩] (fun _ => "s0")
        [toDwellPoint ⟨10, 10, 0, 0, "abstract1"⟩,
          toDwellPoint ⟨15, 15, 100, 100, "abstract1"⟩] = [("R_s0", 0)] ∧
      specDwellTimeInRegion ⟨"R", 0, 20, 0, 20⟩
        [toDwellPoint ⟨10, 10, 0, 0, "abstract1"⟩,
          toDwellPoint ⟨15, 15, 100, 100, "abstract1"⟩] = 100 ∧
      isGazeOnElement 10 10 ⟨"R", 0, 20, 0, 20⟩ = true := by
  decide

/-- C2 (failing input): two regions both labelled `"A"` with disjoint
rectangles and distinct generated keys `A_k0`, `A_k1`; a 100 ms pair of
gaze points lies inside the second region only.  The accumulation looks
up the first key whose name starts with the trimmed label, so the
second region's 100 ms lands on the first region's key `A_k0` while the
second region's own key `A_k1` stays 0 — dwell time is attributed to
another region's key, contradicting the claim. -/
theorem dwell_time_colliding_labels_misattribution :
    calculateDwellTimeOnAOIs [⟨"A", 0, 10, 0, 10⟩, ⟨"A", 100, 110, 100, 110⟩]
        (fun n => if n = 0 then "k0" else "k1")
        [⟨105, 105, some 0, 0⟩, ⟨105, 105, some 100, 100⟩] =
      [("A_k0", 100), ("A_k1", 0)] ∧
      isGazeOnElement 105 105 ⟨"A", 0, 10, 0, 10⟩ = false ∧
      isGazeOnElement 105 105 ⟨"A", 100, 110, 100, 110⟩ = true := by
  decide

/-- C5: on an initialized adapter, `calibrate` with the single target
point (50, 50) and no engine errors resolves a record with
`completed = true` and a positions sequence of length 1; and `calibrate`
with no positions argument resolves a record whose positions sequence
is the default 9-point percentage grid. -/
theorem calibrate_single_point_and_default_grid (s : TrackerState)
    (t : Int) (w h : Rat) (hs : s.isInitialized = true) :
    (∃ s' calls r, calibrate s (some [⟨50, 50⟩]) t w h = (s', calls, Except.ok r) ∧
        r.completed = true ∧ r.positions.length = 1) ∧
      (∃ s' calls r, calibrate s none t w h = (s', calls, Except.ok r) ∧
        r.positions = defaultPositions) := by
  cases s with
  | mk init gd cd =>
      cases init with
      | false => simp at hs
      | true => exact ⟨⟨_, _, _, rfl, rfl, rfl⟩, ⟨_, _, _, rfl, rfl⟩⟩

/-- Witness for C5 at a concrete initialized state. -/
theorem calibrate_single_point_and_default_grid_witness :
    (⟨true, [], none⟩ : TrackerState).isInitialized = true ∧
      ((∃ s' calls r,
          calibrate ⟨true, [], none⟩ (some [⟨50, 50⟩]) 0 800 600 =
            (s', calls, Except.ok r) ∧
            r.completed = true ∧ r.positions.length = 1) ∧
        (∃ s' calls r,
          calibrate ⟨true, [], none⟩ none 0 800 600 = (s', calls, Except.ok r) ∧
            r.positions = defaultPositions)) :=
  ⟨rfl, calibrate_single_point_and_default_grid ⟨true, [], none⟩ 0 800 600 rfl⟩

/-- C6: `calibrate` invoked before a successful `init` throws the
"not initialized" error, performs no engine call, and leaves the whole
state — in particular the stored calibration record — unchanged. -/
theorem calibrate_uninitialized_error (s : TrackerState)
    (pos : Option (List Pos)) (t : Int) (w h : Rat)
    (hs : s.isInitialized = false) :
    calibrate s pos t w h = (s, [], Except.error "Eye tracking not initialized") := by
  simp [calibrate, hs]

/-- Witness for C6 at a concrete uninitialized state. -/
theorem calibrate_uninitialized_error_witness :
    (⟨false, [], none⟩ : TrackerState).isInitialized = false ∧
      calibrate ⟨false, [], none⟩ none 0 800 600 =
        (⟨false, [], none⟩, [], Except.error "Eye tracking not initialized") :=
  ⟨rfl, calibrate_uninitialized_error ⟨false, [], none⟩ none 0 800 600 rfl⟩

/-- C10: every invocation of `calibrate` on an initialized adapter
instructs the engine to discard its accumulated training samples
(`webgazer.clearData()`) as its very first engine call, before any
target is visited: every later call in the trace is a screen-position
recording. -/
theorem calibrate_clears_training_data_first (s : TrackerState)
    (pos : Option (List Pos)) (t : Int) (w h : Rat)
    (hs : s.isInitialized = true) :
    ∃ s' rest r,
      calibrate s pos t w h = (s', EngineCall.clearData :: rest, Except.ok r) ∧
        ∀ c ∈ rest, ∃ x y, c = EngineCall.recordScreenPosition x y := by
  cases s with
  | mk init gd cd =>
      cases init with
      | false => simp at hs
      | true =>
          refine ⟨_, _, _, rfl, ?_⟩
          intro c hc
          rw [List.mem_flatten] at hc
          obtain ⟨l, hl, hcl⟩ := hc
          rw [List.mem_map] at hl
          obtain ⟨p, _, rfl⟩ := hl
          exact ⟨_, _, List.eq_of_mem_replicate hcl⟩

/-- Witness for C10 at a concrete initialized state. -/
theorem calibrate_clears_training_data_first_witness :
    (⟨true, [], none⟩ : TrackerState).isInitialized = true ∧
      ∃ s' rest r,
        calibrate ⟨true, [], none⟩ none 0 800 600 =
          (s', EngineCall.clearData :: rest, Except.ok r) ∧
          ∀ c ∈ rest, ∃ x y, c = EngineCall.recordScreenPosition x y :=
  ⟨rfl, calibrate_clears_training_data_first ⟨true, [], none⟩ none 0 800 600 rfl⟩

/-- C8: `saveCalibrationState` writes the completion flag, the
stringified timestamp and the serialized record exactly when an
in-memory record exists with `completed = true`; when the record is
absent or not completed, every key of the session store is unchanged. -/
theorem saveCalibrationState_only_when_completed (s : TrackerState)
    (st : Store) :
    (∀ c, s.calibrationData = some c → c.completed = true →
        saveCalibrationState s st =
          ⟨some "true", some (toString c.timestamp),
            some (StoredVal.json (encodeCalib c))⟩) ∧
      ((s.calibrationData = none ∨
          ∃ c, s.calibrationData = some c ∧ c.completed = false) →
        saveCalibrationState s st = st) := by
  constructor
  · intro c hc hcomp
    simp [saveCalibrationState, hc, hcomp]
  · rintro (h | ⟨c, hc, hcomp⟩) <;> simp [saveCalibrationState, *]

/-- Witness for C8 at a concrete completed record. -/
theorem saveCalibrationState_only_when_completed_witness :
    (⟨true, [], some ⟨[⟨50, 50⟩], 7, true⟩⟩ : TrackerState).calibrationData =
        some ⟨[⟨50, 50⟩], 7, true⟩ ∧
      (⟨[⟨50, 50⟩], 7, true⟩ : CalibrationRecord).completed = true ∧
      saveCalibrationState ⟨true, [], some ⟨[⟨50, 50⟩], 7, true⟩⟩ ⟨none, none, none⟩ =
        ⟨some "true", some (toString (7 : Int)),
          some (StoredVal.json (encodeCalib ⟨[⟨50, 50⟩], 7, true⟩))⟩ :=
  ⟨rfl, rfl,
    (saveCalibrationState_only_when_completed
      ⟨true, [], some ⟨[⟨50, 50⟩], 7, true⟩⟩ ⟨none, none, none⟩).1
      ⟨[⟨50, 50⟩], 7, true⟩ rfl rfl⟩

/-- C3 counterexample: all three keys are present and the flag is the
literal string `'true'`, but the serialized record is not parsable
JSON.  The claim says such corrupted state makes `loadCalibrationState`
return false without raising an error; the code instead propagates the
`JSON.parse` syntax error, because the parse is not wrapped in a
`try`. -/
theorem loadCalibrationState_unparsable_raises :
    loadCalibrationState ⟨false, [], none⟩
        ⟨some "true", some "12345", some (StoredVal.malformed "not-json")⟩ =
      Except.error "SyntaxError: Unexpected token in JSON" := rfl

/-- C3 amended: `loadCalibrationState` restores the in-memory record
and returns true only when all three keys are present, the flag is the
literal string `'true'`, and the serialized record is present as
parsable JSON; any state with a missing or falsy key or a flag other
than `'true'` makes it return false without an error and without
touching the in-memory record; but an unparsable (non-empty) serialized
record together with the other two keys present and the flag `'true'`
makes it raise the `JSON.parse` syntax error instead of returning
false. -/
theorem loadCalibrationState_amended (s : TrackerState) (st : Store) :
    (∀ s' : TrackerState, loadCalibrationState s st = Except.ok (s', true) →
        st.eyeTrackingCalibrated = some "true" ∧
          jsTruthyStr st.calibrationTimestamp = true ∧
          ∃ j : Json, st.calibrationData = some (StoredVal.json j) ∧
            s' = { s with calibrationData := decodeCalib j }) ∧
      ((st.eyeTrackingCalibrated ≠ some "true" ∨
          jsTruthyStr st.calibrationTimestamp = false ∨
          truthyOptStored st.calibrationData = false) →
        loadCalibrationState s st = Except.ok (s, false)) ∧
      (∀ b : String, st.calibrationData = some (StoredVal.malformed b) →
        st.eyeTrackingCalibrated = some "true" →
        jsTruthyStr st.calibrationTimestamp = true → b.isEmpty = false →
        loadCalibrationState s st =
          Except.error "SyntaxError: Unexpected token in JSON") := by
  obtain ⟨flag, ts, data⟩ := st
  refine ⟨?_, ?_, ?_⟩
  · intro s' h
    cases data with
    | none => simp [loadCalibrationState] at h
    | some v =>
        by_cases hc :
            (decide (flag = some "true") && jsTruthyStr ts && v.truthy) = true
        · cases v with
          | json j =>
              simp [loadCalibrationState, hc] at h
              have hparts := hc
              simp [Bool.and_eq_true, decide_eq_true_eq] at hparts
              exact ⟨hparts.1.1, hparts.1.2, j, rfl, h.symm⟩
          | malformed b => simp [loadCalibrationState, hc] at h
        · simp [loadCalibrationState, hc] at h
  · intro h
    cases data with
    | none => simp [loadCalibrationState]
    | some v =>
        have hc :
            (decide (flag = some "true") && jsTruthyStr ts && v.truthy) = false := by
          rcases h with h | h | h
          · simp [h]
          · simp [h]
          · simp only [truthyOptStored] at h
            simp [h]
        simp [loadCalibrationState, hc]
  · intro b hdata hflag hts hne
    subst hdata
    subst hflag
    simp [loadCalibrationState, hts, StoredVal.truthy, hne]

/-- Witness for C3's amended theorem: a concrete store with all three
keys present, flag `'true'`, and an unparsable serialized record makes
the load raise the parse error. -/
theorem loadCalibrationState_amended_witness :
    ("not-json" : String).isEmpty = false ∧
      loadCalibrationState ⟨true, [], none⟩
          ⟨some "true", some "12345", some (StoredVal.malformed "not-json")⟩ =
        Except.error "SyntaxError: Unexpected token in JSON" :=
  ⟨rfl,
    (loadCalibrationState_amended ⟨true, [], none⟩
        ⟨some "true", some "12345", some (StoredVal.malformed "not-json")⟩).2.2
      "not-json" rfl rfl rfl rfl⟩

end EyeTracking
